import Mathlib

/-!
# Verification of the `component` resource parser

Shallow embedding of `src/component/resource_parser.go` (package `component`),
the schema-driven content merger of the repository: a Dispatcher (`Parse`)
routes one schema node plus its content rows and a locale to a per-kind
merger, which resolves the node's ancestor chain in the Category Registry,
builds the localized value, and attaches it.

The Go file under `src/` defines the parser functions themselves; the data
types (`Category`, `Subcategory`, `Difficulty`, `Item`, `Check`, `Checklist`,
`Form`, `FormScreen`, `FormInput`, `Resource`), the mutation helpers
(`Category.Add`, `Category.Sub`, `Subcategory.AddDifficulty`,
`Subcategory.Difficulty`, `Difficulty.AddItem`, `Difficulty.SetChecks`,
`Checklist.Add`), the error value `ErrContent` and the constant
`paragraphSep` live in other files of the repository that are not under
`src/`; those are modelled from the spec and carry a
`Modelled from the spec:` doc comment.

Go-specific semantics that the embedding reproduces exactly:
* reading a key that is absent from a map (or reading from a `nil` map)
  yields the zero value (`""` for strings, `0` for ints);
* `item := screen.Items[j]` copies the struct value, so field assignments to
  `item` never reach `screen.Items[j]`;
* an out-of-range index expression is a runtime panic, not an error return;
  the embedding makes it an explicit `.panic` outcome.
-/

namespace Component

/-- The spec's error kinds (§7): the Go code returns `ErrContent` and various
`fmt.Errorf` values; the spec groups them into `ShapeMismatch` (row count or
row kind disagrees with the schema), `NotFound` (missing ancestor) and
`UnsupportedVariant` (dispatcher default branch). -/
inductive ErrKind where
  | shapeMismatch
  | notFound
  | unsupportedVariant
deriving DecidableEq, Repr

/-- A content row. Go represents a row as `map[string]string`, which may be
`nil` (`parseChecklist` tests `res.Content[0] == nil`); reading any key from a
`nil` map or a map without that key yields `""`. -/
inductive Row where
  | nil : Row
  | mk : List (String × String) → Row
deriving DecidableEq, Repr

/-- Go map read `row[k]`: `""` when the row is `nil` or the key is absent. -/
def Row.get (r : Row) (k : String) : String :=
  match r with
  | .nil => ""
  | .mk l => (l.lookup k).getD ""

/-- Go `row == nil`. -/
def Row.isNil (r : Row) : Bool :=
  match r with
  | .nil => true
  | .mk _ => false

/-- Modelled from the spec: `Resource{content: ordered sequence of
string-keyed text mappings}` (§6); the Go type is defined outside `src/`. -/
structure Resource where
  content : List Row
deriving DecidableEq, Repr

/-- Modelled from the spec: a localized check, `{text, noCheck}` (§3, §4.6).
The Go `Check` type is defined outside `src/`. -/
structure Check where
  text : String
  noCheck : Bool
deriving DecidableEq, Repr

/-- Modelled from the spec: a localized Item (§3); built by `parseItem` from
`ID`, trimmed `Title`, `Order` and the assembled `Body`. -/
structure Item where
  id : String
  title : String
  order : Nat
  body : String
deriving DecidableEq, Repr

/-- Modelled from the spec: a localized Difficulty (§3) owning its Items and
at most one Checklist; `parseDifficulty` builds it from `ID` and `Descr`. -/
structure Difficulty where
  id : String
  descr : String
  items : List Item
  checks : Option (List Check)
deriving DecidableEq, Repr

/-- Modelled from the spec: a localized Subcategory (§3) owning its ordered
Difficulties; `parseSubcategory` builds it from `ID`, `Order`, `Name`. -/
structure Subcategory where
  id : String
  order : Nat
  name : String
  difficulties : List Difficulty
deriving DecidableEq, Repr

/-- Modelled from the spec: a localized Category (§3) owning its ordered
Subcategories; `parseCategory` builds it from `ID`, `Order`, `Name`,
`Locale`. -/
structure Category where
  id : String
  order : Nat
  name : String
  locale : String
  subs : List Subcategory
deriving DecidableEq, Repr

/-- Go `FormInput{Label, Hint, Options}`; `Options` is a `[]string`, and
`parseForm` distinguishes a `nil` slice (`item.Options == nil`) from a
non-nil one, hence `Option (List String)`. -/
structure FormInput where
  label : String
  hint : String
  options : Option (List String)
deriving DecidableEq, Repr

/-- The zero value produced by Go's `make([]FormInput, n)`. -/
def FormInput.zero : FormInput := ⟨"", "", none⟩

/-- Go `FormScreen{Name, Items}`. -/
structure FormScreen where
  name : String
  items : List FormInput
deriving DecidableEq, Repr

/-- Go `Form{ID, Name, Locale, Screens}`; used both as the schema node handed
to `parseForm` and as the localized value it stores. -/
structure Form where
  id : String
  name : String
  locale : String
  screens : List FormScreen
deriving DecidableEq, Repr

/-- Schema-side Category node: `parseCategory` reads `c.ID` and `c.Order`. -/
structure CategoryNode where
  id : String
  order : Nat
deriving DecidableEq, Repr

/-- Schema-side Subcategory node: `parseSubcategory` reads `s.ID`, `s.Order`
and `s.parent.ID`; the parent back-reference is flattened to the parent
Category's id (§3: parent back-references are read-only navigation aids). -/
structure SubcategoryNode where
  id : String
  order : Nat
  parentID : String
deriving DecidableEq, Repr

/-- Schema-side Difficulty node: `parseDifficulty` reads `d.ID`,
`d.parent.ID` (Subcategory) and `d.parent.parent.ID` (Category). -/
structure DifficultyNode where
  id : String
  parentID : String
  grandID : String
deriving DecidableEq, Repr

/-- Schema-side Item node: `parseItem` reads `i.ID`, `i.Order`, `i.parent.ID`
(Difficulty), `i.parent.parent.ID` (Subcategory), `i.parent.parent.parent.ID`
(Category). -/
structure ItemNode where
  id : String
  order : Nat
  difID : String
  subID : String
  catID : String
deriving DecidableEq, Repr

/-- Schema-side Checklist node: `parseChecklist` reads `c.Checks[i].NoCheck`
and the three ancestor ids `c.parent.ID`, `c.parent.parent.ID`,
`c.parent.parent.parent.ID`. The schema fixes only the count and the
`noCheck` flags of the expected checks (§3). -/
structure ChecklistNode where
  checks : List Bool
  difID : String
  subID : String
  catID : String
deriving DecidableEq, Repr

/-- The dispatcher's input: a tagged variant over the six schema node kinds
(`Parse`'s type switch); `invalid` stands for any other `Component`
implementation, hitting the `default` branch. -/
inductive Cmp where
  | form : Form → Cmp
  | category : CategoryNode → Cmp
  | subcategory : SubcategoryNode → Cmp
  | difficulty : DifficultyNode → Cmp
  | item : ItemNode → Cmp
  | checklist : ChecklistNode → Cmp
  | invalid : Cmp
deriving DecidableEq, Repr

/-- The `ResourceParser` state: `categories.index` (a Go map, modelled as an
assoc list where insertion prepends and lookup takes the first hit, so the
newest binding for a key wins, as in Go), `categories.list`, and `forms`
(also a Go map). The shared `bytes.Buffer` is omitted: `parseItem` calls
`r.buffer.Reset()` before every use, so its cross-call content is never
observable. -/
structure PState where
  catIndex : List ((String × String) × Nat)
  catList : List Category
  forms : List ((String × String) × Form)
deriving DecidableEq, Repr

/-- `NewResourceParser`: empty index, empty list, empty forms map. -/
def NewResourceParser : PState := ⟨[], [], []⟩

/-- How a merge call ends: normal return `ok`, error return `err`, or a Go
runtime panic (out-of-range index). -/
inductive Status where
  | ok
  | err : ErrKind → Status
  | panic
deriving DecidableEq, Repr

/-- Result of one merge call: its status plus the parser state and the
caller's `Resource` as they stand when the call ends (Go mutations made
before an early return persist). -/
structure Outcome where
  status : Status
  st : PState
  res : Resource
deriving DecidableEq, Repr

/-- `addCat`: record the new list position in the index, then append. -/
def addCat (st : PState) (c : Category) : PState :=
  { st with
    catIndex := ((c.id, c.locale), st.catList.length) :: st.catIndex
    catList := st.catList ++ [c] }

/-- Go map read `r.categories.index[key]` — the zero value `0` when the key
is absent. -/
def indexRead (ix : List ((String × String) × Nat)) (k : String × String) : Nat :=
  (ix.lookup k).getD 0

/-- Result of `getCat`: `missing` is Go's `nil` return (empty index);
`found idx c` is the pointer to `list[idx]`; `oob` is the runtime panic of
`r.categories.list[idx]` when `idx` is out of range (unreachable from states
built by `addCat`, but represented faithfully). -/
inductive CatLookup where
  | missing
  | found : Nat → Category → CatLookup
  | oob
deriving DecidableEq, Repr

/-- `getCat`: returns `nil` only when the index map is empty; otherwise reads
the index (a missing key yields Go's zero value `0`) and dereferences
`list[idx]` — so an unregistered `(id, locale)` against a non-empty registry
silently yields the category at position 0. -/
def getCat (st : PState) (id locale : String) : CatLookup :=
  if st.catIndex.isEmpty then .missing
  else
    let idx := indexRead st.catIndex (id, locale)
    match st.catList.get? idx with
    | some c => .found idx c
    | none => .oob

/-- `Categories()`: the registry grouped by locale, in registration order;
here exposed as the per-locale fiber of that map. -/
def Categories (st : PState) (locale : String) : List Category :=
  st.catList.filter (fun c => c.locale == locale)

/-- Modelled from the spec: `cat.Add(sub)` appends the new Subcategory to the
parent's child list (§4.3); the method is defined outside `src/`. -/
def Category.Add (c : Category) (s : Subcategory) : Category :=
  { c with subs := c.subs ++ [s] }

/-- Modelled from the spec: `cat.Sub(id)`, the by-id child lookup used by
§4.4–4.6; returns the first child with that id, together with its position
(the Go method returns a pointer, so mutation through it is an in-place
update at that position). -/
def Category.Sub (c : Category) (id : String) : Option (Nat × Subcategory) :=
  match c.subs.findIdx? (fun s => s.id == id) with
  | some j =>
    match c.subs.get? j with
    | some s => some (j, s)
    | none => none
  | none => none

/-- Modelled from the spec: `sub.AddDifficulty(d)` appends (§4.4). -/
def Subcategory.AddDifficulty (s : Subcategory) (d : Difficulty) : Subcategory :=
  { s with difficulties := s.difficulties ++ [d] }

/-- Modelled from the spec: `sub.Difficulty(id)`, the by-id lookup of §4.5;
first hit with its position. -/
def Subcategory.Difficulty (s : Subcategory) (id : String) : Option (Nat × Difficulty) :=
  match s.difficulties.findIdx? (fun d => d.id == id) with
  | some k =>
    match s.difficulties.get? k with
    | some d => some (k, d)
    | none => none
  | none => none

/-- Modelled from the spec: `dif.AddItem(item)` appends to the difficulty's
ordered item list (§4.5). -/
def Difficulty.AddItem (d : Difficulty) (i : Item) : Difficulty :=
  { d with items := d.items ++ [i] }

/-- Modelled from the spec: `dif.SetChecks(&checks)` replaces (does not
append to) any existing checklist on the difficulty (§4.6). -/
def Difficulty.SetChecks (d : Difficulty) (cs : List Check) : Difficulty :=
  { d with checks := some cs }

/-- Write back through the `*Subcategory` returned by `cat.Sub`: replace the
child at its position. -/
def Category.setSub (c : Category) (j : Nat) (s : Subcategory) : Category :=
  { c with subs := c.subs.set j s }

/-- Write back through the `*Difficulty` returned by `sub.Difficulty`. -/
def Subcategory.setDif (s : Subcategory) (k : Nat) (d : Component.Difficulty) : Subcategory :=
  { s with difficulties := s.difficulties.set k d }

/-- Write back through the `*Category` returned by `getCat`: replace the
registry list entry at its position. -/
def PState.setCat (st : PState) (idx : Nat) (c : Category) : PState :=
  { st with catList := st.catList.set idx c }

/-- Modelled from the spec: `paragraphSep`, the fixed paragraph separator of
§4.5; its value is defined outside `src/`, and no theorem below depends on
the concrete choice. -/
def paragraphSep : String := "\n\n"

/-- Go's `strings.TrimSpace`: the string with all leading and trailing
whitespace removed (structurally recursive on the character list, so
concrete instances evaluate). -/
def trimSpace (s : String) : String :=
  ⟨((s.data.dropWhile Char.isWhitespace).reverse.dropWhile Char.isWhitespace).reverse⟩

/-- `parseCategory` (lines 112–123): exactly one row (`ErrContent`, a
ShapeMismatch, otherwise), then `addCat` a fresh Category carrying the row's
`name` field. -/
def parseCategory (st : PState) (c : CategoryNode) (res : Resource) (locale : String) :
    Outcome :=
  match res.content with
  | [row] =>
    ⟨.ok, addCat st ⟨c.id, c.order, row.get "name", locale, []⟩, res⟩
  | _ => ⟨.err .shapeMismatch, st, res⟩

/-- `parseSubcategory` (lines 125–139): one row, resolve the parent Category
via `getCat` (`NotFound` on `nil`), then `cat.Add` a fresh Subcategory with
the row's `name`. -/
def parseSubcategory (st : PState) (s : SubcategoryNode) (res : Resource) (locale : String) :
    Outcome :=
  match res.content with
  | [row] =>
    match getCat st s.parentID locale with
    | .missing => ⟨.err .notFound, st, res⟩
    | .oob => ⟨.panic, st, res⟩
    | .found idx cat =>
      ⟨.ok, st.setCat idx (cat.Add ⟨s.id, s.order, row.get "name", []⟩), res⟩
  | _ => ⟨.err .shapeMismatch, st, res⟩

/-- `parseDifficulty` (lines 141–158): one row, resolve grandparent Category
then parent Subcategory (`NotFound` at either level), then
`sub.AddDifficulty` a fresh Difficulty with the row's `description`. -/
def parseDifficulty (st : PState) (d : DifficultyNode) (res : Resource) (locale : String) :
    Outcome :=
  match res.content with
  | [row] =>
    match getCat st d.grandID locale with
    | .missing => ⟨.err .notFound, st, res⟩
    | .oob => ⟨.panic, st, res⟩
    | .found idx cat =>
      match cat.Sub d.parentID with
      | none => ⟨.err .notFound, st, res⟩
      | some (j, sub) =>
        ⟨.ok,
          st.setCat idx (cat.setSub j (sub.AddDifficulty ⟨d.id, row.get "description", [], none⟩)),
          res⟩
  | _ => ⟨.err .shapeMismatch, st, res⟩

/-- The paragraph-mode body loop of `parseItem` (lines 189–194): fold the
rows after the first into the (reset) buffer, writing `paragraphSep` before
a piece only when the buffer is non-empty. -/
def itemBody (rows : List Row) : String :=
  rows.foldl
    (fun buf v =>
      (if buf ≠ "" then buf ++ paragraphSep else buf) ++ trimSpace (v.get "body"))
    ""

/-- `parseItem` (lines 160–199): at least one row (`ErrContent` otherwise),
resolve the three-level ancestor chain, then build the Item: trimmed `title`
of the first row; legacy mode when the first row's `body` is non-empty
(exactly one row or `Invalid Legacy`, a ShapeMismatch), paragraph mode
otherwise; finally `dif.AddItem`. -/
def parseItem (st : PState) (i : ItemNode) (res : Resource) (locale : String) :
    Outcome :=
  match res.content with
  | [] => ⟨.err .shapeMismatch, st, res⟩
  | first :: rest =>
    match getCat st i.catID locale with
    | .missing => ⟨.err .notFound, st, res⟩
    | .oob => ⟨.panic, st, res⟩
    | .found idx cat =>
      match cat.Sub i.subID with
      | none => ⟨.err .notFound, st, res⟩
      | some (j, sub) =>
        match sub.Difficulty i.difID with
        | none => ⟨.err .notFound, st, res⟩
        | some (k, dif) =>
          if first.get "body" ≠ "" then
            -- Old Version Compatibility: one row only
            if rest ≠ [] then ⟨.err .shapeMismatch, st, res⟩
            else
              ⟨.ok,
                st.setCat idx (cat.setSub j (sub.setDif k
                  (dif.AddItem ⟨i.id, trimSpace (first.get "title"), i.order,
                    trimSpace (first.get "body")⟩))),
                res⟩
          else
            ⟨.ok,
              st.setCat idx (cat.setSub j (sub.setDif k
                (dif.AddItem ⟨i.id, trimSpace (first.get "title"), i.order, itemBody rest⟩))),
              res⟩

/-- The check-building loop of `parseChecklist` (lines 222–228): pair each
remaining row's trimmed `text` with `c.Checks[i].NoCheck`, in order (the two
lists have equal length when this runs). -/
def buildChecks (rows : List Row) (flags : List Bool) : List Check :=
  (rows.zip flags).map (fun p => ⟨trimSpace (p.1.get "text"), p.2⟩)

/-- `parseChecklist` (lines 201–231): resolve the three-level ancestor chain,
then destructively strip leading `nil` rows from `res.Content` (the caller's
Resource is resliced in place), require the remaining count to equal
`len(c.Checks)` (ShapeMismatch otherwise — with the Resource already
mutated), and `dif.SetChecks` the paired checklist. -/
def parseChecklist (st : PState) (c : ChecklistNode) (res : Resource) (locale : String) :
    Outcome :=
  match getCat st c.catID locale with
  | .missing => ⟨.err .notFound, st, res⟩
  | .oob => ⟨.panic, st, res⟩
  | .found idx cat =>
    match cat.Sub c.subID with
    | none => ⟨.err .notFound, st, res⟩
    | some (j, sub) =>
      match sub.Difficulty c.difID with
      | none => ⟨.err .notFound, st, res⟩
      | some (k, dif) =>
        let res' : Resource := ⟨res.content.dropWhile Row.isNil⟩
        if res'.content.length ≠ c.checks.length then
          ⟨.err .shapeMismatch, st, res'⟩
        else
          ⟨.ok,
            st.setCat idx (cat.setSub j (sub.setDif k
              (dif.SetChecks (buildChecks res'.content c.checks)))),
            res'⟩

/-- Intermediate result of `parseForm`'s loops: continue with a value, bail
out with an error return, or hit a runtime panic. -/
inductive StepRes (α : Type) where
  | ok : α → StepRes α
  | err : ErrKind → StepRes α
  | panic
deriving DecidableEq, Repr

/-- The item loop of `parseForm` (lines 95–106), iterating over the output
screen's freshly made items. `item` is Go's `item := screen.Items[j]`: a
struct COPY of a slot of the zero-valued output slice, so the loop's field
assignments `item.Label, item.Hint = ...`, `item.Options = ...` land on the
copy and are lost — the slot stored in the screen stays as made. Skip when
the (output) slot has empty label, empty hint and nil options; otherwise
`m[0]` (unguarded: a runtime panic when `m` is empty) must not carry a
non-empty `screen` field (ShapeMismatch), and one row is consumed. Returns
the stored items and the remaining stream. -/
def formItemsLoop (newItems : List FormInput) (m : List Row) :
    StepRes (List FormInput × List Row) :=
  match newItems with
  | [] => .ok ([], m)
  | item :: restItems =>
    if item.label = "" ∧ item.hint = "" ∧ item.options = none then
      match formItemsLoop restItems m with
      | .ok (its, m') => .ok (item :: its, m')
      | .err e => .err e
      | .panic => .panic
    else
      match m with
      | [] => .panic
      | row :: _ =>
        if row.get "screen" ≠ "" then .err .shapeMismatch
        else
          -- the writes to the copy of the slot are dropped; `item` is stored
          -- unchanged and the row is consumed
          match formItemsLoop restItems m.tail with
          | .ok (its, m') => .ok (item :: its, m')
          | .err e => .err e
          | .panic => .panic

/-- The screen loop of `parseForm` (lines 81–107): for each schema screen,
make a zero-valued item slice of the schema's length; when the schema
screen's name is non-empty, consume one header row whose `screen` field must
be non-empty (ShapeMismatch on an empty field or on exhaustion) and take it
as the screen's name; then run the item loop. -/
def formScreensLoop (schemaScreens : List FormScreen) (m : List Row) :
    StepRes (List FormScreen × List Row) :=
  match schemaScreens with
  | [] => .ok ([], m)
  | s :: rest =>
    let newItems := List.replicate s.items.length FormInput.zero
    let hdr : StepRes (String × List Row) :=
      if s.name ≠ "" then
        match m with
        | [] => .err .shapeMismatch -- "No more at screen i/n"
        | row :: tl =>
          if row.get "screen" ≠ "" then .ok (row.get "screen", tl)
          else .err .shapeMismatch -- "Expected screen i, got item"
      else .ok ("", m)
    match hdr with
    | .err e => .err e
    | .panic => .panic
    | .ok (nm, m1) =>
      match formItemsLoop newItems m1 with
      | .err e => .err e
      | .panic => .panic
      | .ok (items, m2) =>
        match formScreensLoop rest m2 with
        | .err e => .err e
        | .panic => .panic
        | .ok (screens, m3) => .ok (⟨nm, items⟩ :: screens, m3)

/-- `parseForm` (lines 73–110): `res.Content[0]["form"]` is read with no
length guard — an empty Resource is a runtime panic; the remaining rows are
the stream walked by the screen loop; on success the assembled form is
stored under `(f.ID, locale)`, replacing any prior value. -/
def parseForm (st : PState) (f : Form) (res : Resource) (locale : String) :
    Outcome :=
  match res.content with
  | [] => ⟨.panic, st, res⟩
  | first :: rest =>
    match formScreensLoop f.screens rest with
    | .err e => ⟨.err e, st, res⟩
    | .panic => ⟨.panic, st, res⟩
    | .ok (screens, _) =>
      ⟨.ok,
        { st with forms := ((f.id, locale), ⟨f.id, first.get "form", locale, screens⟩) :: st.forms },
        res⟩

/-- `Parse` (lines 54–71): the dispatcher's type switch; any other component
kind falls to the `default` branch (`Invalid Component`). -/
def Parse (st : PState) (cmp : Cmp) (res : Resource) (locale : String) : Outcome :=
  match cmp with
  | .form f => parseForm st f res locale
  | .category c => parseCategory st c res locale
  | .subcategory s => parseSubcategory st s res locale
  | .difficulty d => parseDifficulty st d res locale
  | .item i => parseItem st i res locale
  | .checklist c => parseChecklist st c res locale
  | .invalid => ⟨.err .unsupportedVariant, st, res⟩

/-- The body-joining rule in the spec's words (§4.5): pieces are appended
left to right and the fixed paragraph separator is inserted only between a
non-empty accumulated prefix and the next piece — no leading separator. -/
def specJoin (pieces : List String) : String :=
  pieces.foldl (fun acc p => if acc = "" then p else acc ++ paragraphSep ++ p) ""

/-! ## Concrete fixtures -/

/-- A localized difficulty that already carries a checklist (so that a later
checklist merge exhibits replacement) — fixture for witnesses. -/
def wDif : Difficulty := ⟨"d1", "D", [], some [⟨"old", false⟩]⟩

/-- Subcategory fixture owning `wDif`. -/
def wSub : Subcategory := ⟨"s1", 1, "S", [wDif]⟩

/-- Category fixture owning `wSub`, registered for locale `"en"`. -/
def wCat : Category := ⟨"c1", 0, "C", "en", [wSub]⟩

/-- Registry fixture: `wCat` registered at position 0 under `("c1", "en")`. -/
def wState : PState := ⟨[(("c1", "en"), 0)], [wCat], []⟩

/-- Registry holding exactly one category, `("catA", "en")`, obtained by a
successful Category merge from the fresh parser. -/
def oneCatState : PState :=
  (parseCategory NewResourceParser ⟨"catA", 0⟩ ⟨[Row.mk [("name", "A")]]⟩ "en").st

/-- The C2 scenario's schema: one named screen with one real item slot and
one placeholder slot (label, hint and options all empty). -/
def c2Schema : Form :=
  ⟨"f1", "", "", [⟨"Details", [⟨"Name", "your name", some ["x"]⟩, FormInput.zero]⟩]⟩

/-- The C2 scenario's rows: form-name row, screen header `"S1"`, and one item
row with label `"L"`, hint `"H"`, options `"a;b"`. -/
def c2Rows : Resource :=
  ⟨[Row.mk [("form", "F")], Row.mk [("screen", "S1")],
    Row.mk [("label", "L"), ("hint", "H"), ("options", "a;b")]]⟩

/-! ## Helper lemmas -/

/-- After `addCat`, `getCat` resolves the new category's key to the freshly
appended entry (the old list's length is its position). -/
theorem getCat_addCat (st : PState) (c : Category) :
    getCat (addCat st c) c.id c.locale = .found st.catList.length c := by
  simp [getCat, addCat, indexRead, List.getElem?_concat_length]

/-- The parser's buffer fold (`itemBody`) computes exactly the spec-side
join of the rows' trimmed `body` fields. -/
theorem itemBody_eq_specJoin (rows : List Row) :
    itemBody rows = specJoin (rows.map (fun v => trimSpace (v.get "body"))) := by
  suffices h : ∀ (l : List Row) (buf : String),
      l.foldl
        (fun buf v => (if buf ≠ "" then buf ++ paragraphSep else buf) ++ trimSpace (v.get "body"))
        buf
      = (l.map (fun v => trimSpace (v.get "body"))).foldl
          (fun acc p => if acc = "" then p else acc ++ paragraphSep ++ p) buf by
    exact h rows ""
  intro l
  induction l with
  | nil => intro buf; rfl
  | cons v t ih =>
    intro buf
    simp only [List.foldl_cons, List.map_cons]
    rw [ih]
    congr 1
    by_cases hb : buf = ""
    · subst hb; simp
    · simp [hb, String.append_assoc]

/-- Frame property of `parseCategory`: an error return leaves the parser
state untouched. -/
theorem parseCategory_err_frame (st : PState) (c : CategoryNode) (res : Resource)
    (locale : String) (e : ErrKind) :
    (parseCategory st c res locale).status = .err e →
    (parseCategory st c res locale).st = st := by
  unfold parseCategory
  repeat' split
  all_goals intro h
  all_goals first | rfl | simp at h

/-- Frame property of `parseSubcategory`: an error return leaves the parser
state untouched. -/
theorem parseSubcategory_err_frame (st : PState) (s : SubcategoryNode) (res : Resource)
    (locale : String) (e : ErrKind) :
    (parseSubcategory st s res locale).status = .err e →
    (parseSubcategory st s res locale).st = st := by
  unfold parseSubcategory
  repeat' split
  all_goals intro h
  all_goals first | rfl | simp at h

/-- Frame property of `parseDifficulty`: an error return leaves the parser
state untouched. -/
theorem parseDifficulty_err_frame (st : PState) (d : DifficultyNode) (res : Resource)
    (locale : String) (e : ErrKind) :
    (parseDifficulty st d res locale).status = .err e →
    (parseDifficulty st d res locale).st = st := by
  unfold parseDifficulty
  repeat' split
  all_goals intro h
  all_goals first | rfl | simp at h

/-- Frame property of `parseItem`: an error return leaves the parser state
untouched. -/
theorem parseItem_err_frame (st : PState) (i : ItemNode) (res : Resource)
    (locale : String) (e : ErrKind) :
    (parseItem st i res locale).status = .err e →
    (parseItem st i res locale).st = st := by
  unfold parseItem
  repeat' split
  all_goals intro h
  all_goals first | rfl | simp at h

/-- Frame property of `parseChecklist`: an error return leaves the parser
state untouched (the caller's Resource, by contrast, may already have been
resliced — see C10). -/
theorem parseChecklist_err_frame (st : PState) (c : ChecklistNode) (res : Resource)
    (locale : String) (e : ErrKind) :
    (parseChecklist st c res locale).status = .err e →
    (parseChecklist st c res locale).st = st := by
  unfold parseChecklist
  repeat' split
  all_goals intro h
  all_goals first
    | rfl
    | (dsimp only at h ⊢; split at h <;> simp_all)

/-- Frame property of `parseForm`: an error return leaves the parser state
(and in particular the form store) untouched. -/
theorem parseForm_err_frame (st : PState) (f : Form) (res : Resource)
    (locale : String) (e : ErrKind) :
    (parseForm st f res locale).status = .err e →
    (parseForm st f res locale).st = st := by
  unfold parseForm
  repeat' split
  all_goals intro h
  all_goals first | rfl | simp at h

/-! ## Claim theorems -/

/-- C1: the claim says a Subcategory merge fails `NotFound` whenever its
parent Category is absent for the locale, "even when the registry already
contains other categories". The code refutes this: with `("catA", "en")`
registered and parent `"catB"` never registered, `getCat`'s map read yields
the zero index `0`, the merge SUCCEEDS, and the new subcategory is attached
to the unrelated category `"catA"`. -/
theorem C1_unregistered_parent_merge_succeeds :
    oneCatState.catIndex.lookup ("catB", "en") = none ∧
    (parseSubcategory oneCatState ⟨"sub1", 0, "catB"⟩ ⟨[Row.mk [("name", "S")]]⟩ "en").status
      = .ok ∧
    (parseSubcategory oneCatState ⟨"sub1", 0, "catB"⟩ ⟨[Row.mk [("name", "S")]]⟩ "en").st.catList
      = [⟨"catA", 0, "A", "en", [⟨"sub1", 0, "S", []⟩]⟩] := by
  refine ⟨rfl, rfl, rfl⟩

/-- C2: the claim says the merged form's screen contains one populated item
`{label := "L", hint := "H", options := ["a", "b"]}`. The code refutes this:
the item loop reads (and writes back to) a value copy of the freshly
zero-made output slot instead of the schema slot, so every slot looks like a
placeholder, no item row is consumed, and the stored screen's items are all
zero-valued. -/
theorem C2_form_items_stay_unpopulated :
    (parseForm NewResourceParser c2Schema c2Rows "en").status = .ok ∧
    (parseForm NewResourceParser c2Schema c2Rows "en").st.forms.lookup ("f1", "en")
      = some ⟨"f1", "F", "en", [⟨"S1", [FormInput.zero, FormInput.zero]⟩]⟩ := by
  refine ⟨rfl, rfl⟩

/-- C3: the claim says every Form merge call returns a structured error
rather than crashing, including on an empty Resource. The code refutes this:
`parseForm` reads `res.Content[0]` with no length guard, so an empty
Resource is a runtime panic (index out of range), not an error return. -/
theorem C3_form_merge_panics_on_empty_resource :
    (Parse NewResourceParser (.form ⟨"f1", "", "", []⟩) ⟨[]⟩ "en").status = .panic ∧
    (Parse NewResourceParser (.form c2Schema) ⟨[]⟩ "en").status = .panic := by
  refine ⟨rfl, rfl⟩

/-- C8: a Category merge with exactly one content row succeeds and the
registry gains exactly one new entry — the list is extended by the single
new category carrying the row's `name`, the index gains its `(id, locale)`
key pointing at it, and `getCat` finds it; with any other row count it fails
ShapeMismatch and the state is untouched. -/
theorem C8_category_merge (st : PState) (c : CategoryNode) (row : Row) (res : Resource)
    (locale : String) :
    ((parseCategory st c ⟨[row]⟩ locale).status = .ok ∧
      (parseCategory st c ⟨[row]⟩ locale).st.catIndex
        = ((c.id, locale), st.catList.length) :: st.catIndex ∧
      (parseCategory st c ⟨[row]⟩ locale).st.catList
        = st.catList ++ [⟨c.id, c.order, row.get "name", locale, []⟩] ∧
      getCat (parseCategory st c ⟨[row]⟩ locale).st c.id locale
        = .found st.catList.length ⟨c.id, c.order, row.get "name", locale, []⟩) ∧
    (res.content.length ≠ 1 →
      (parseCategory st c res locale).status = .err .shapeMismatch ∧
      (parseCategory st c res locale).st = st) := by
  constructor
  · exact ⟨rfl, rfl, rfl,
      getCat_addCat st ⟨c.id, c.order, row.get "name", locale, []⟩⟩
  · intro h
    match hres : res.content with
    | [] => simp [parseCategory, hres]
    | [r] => exact absurd (by simp [hres]) h
    | r₁ :: r₂ :: t => simp [parseCategory, hres]

/-- C9: Category merging is not idempotent — merging the same Category node
with the same single row twice succeeds both times, leaves TWO entries in
the registry's ordered list (both visible in `Categories` for the locale, in
registration order), and `getCat` resolves the key to the most recently
added entry (position `|old list| + 1`). -/
theorem C9_category_merge_not_idempotent (st : PState) (c : CategoryNode) (row : Row)
    (locale : String) :
    (parseCategory st c ⟨[row]⟩ locale).status = .ok ∧
    (parseCategory (parseCategory st c ⟨[row]⟩ locale).st c ⟨[row]⟩ locale).status = .ok ∧
    (parseCategory (parseCategory st c ⟨[row]⟩ locale).st c ⟨[row]⟩ locale).st.catList
      = st.catList ++ [⟨c.id, c.order, row.get "name", locale, []⟩,
          ⟨c.id, c.order, row.get "name", locale, []⟩] ∧
    Categories (parseCategory (parseCategory st c ⟨[row]⟩ locale).st c ⟨[row]⟩ locale).st locale
      = Categories st locale ++ [⟨c.id, c.order, row.get "name", locale, []⟩,
          ⟨c.id, c.order, row.get "name", locale, []⟩] ∧
    getCat (parseCategory (parseCategory st c ⟨[row]⟩ locale).st c ⟨[row]⟩ locale).st c.id locale
      = .found (st.catList.length + 1) ⟨c.id, c.order, row.get "name", locale, []⟩ := by
  refine ⟨rfl, rfl, by simp [parseCategory, addCat], ?_, ?_⟩
  · simp [Categories, parseCategory, addCat, List.filter_append]
  · have h := getCat_addCat (addCat st ⟨c.id, c.order, row.get "name", locale, []⟩)
      ⟨c.id, c.order, row.get "name", locale, []⟩
    simpa [parseCategory, addCat] using h

/-- C4: a Checklist merge whose ancestor chain resolves drops all leading
`nil` rows; it succeeds exactly when the remaining row count equals the
schema's check count, installing on the resolved difficulty — replacing any
existing checklist — the in-order pairing of each remaining row's trimmed
`text` with the schema's `noCheck` flag at the same position; on a count
mismatch it fails ShapeMismatch with the stores untouched. -/
theorem C4_checklist_merge (st : PState) (c : ChecklistNode) (res : Resource) (locale : String)
    (idx : Nat) (cat : Category) (j : Nat) (sub : Subcategory) (k : Nat) (dif : Difficulty)
    (hcat : getCat st c.catID locale = .found idx cat)
    (hsub : cat.Sub c.subID = some (j, sub))
    (hdif : sub.Difficulty c.difID = some (k, dif)) :
    ((res.content.dropWhile Row.isNil).length = c.checks.length →
      (parseChecklist st c res locale).status = .ok ∧
      (parseChecklist st c res locale).st
        = st.setCat idx (cat.setSub j (sub.setDif k
            { dif with checks := some (((res.content.dropWhile Row.isNil).zip c.checks).map
                (fun p => ⟨trimSpace (p.1.get "text"), p.2⟩)) }))) ∧
    ((res.content.dropWhile Row.isNil).length ≠ c.checks.length →
      (parseChecklist st c res locale).status = .err .shapeMismatch ∧
      (parseChecklist st c res locale).st = st) := by
  unfold parseChecklist
  simp only [hcat, hsub, hdif]
  constructor
  · intro hlen
    simp [hlen, buildChecks, Difficulty.SetChecks]
  · intro hlen
    simp [hlen]

/-- C5: an Item merge whose ancestor chain resolves and whose first row has
an empty `body` field succeeds, appending to the resolved difficulty an item
whose title is the first row's trimmed `title` and whose body is the trimmed
`body` fields of all later rows joined with the separator inserted only
after a non-empty accumulated prefix (`specJoin`). -/
theorem C5_item_paragraph_mode (st : PState) (i : ItemNode) (first : Row) (rest : List Row)
    (locale : String) (idx : Nat) (cat : Category) (j : Nat) (sub : Subcategory) (k : Nat)
    (dif : Difficulty)
    (hcat : getCat st i.catID locale = .found idx cat)
    (hsub : cat.Sub i.subID = some (j, sub))
    (hdif : sub.Difficulty i.difID = some (k, dif))
    (hbody : first.get "body" = "") :
    (parseItem st i ⟨first :: rest⟩ locale).status = .ok ∧
    (parseItem st i ⟨first :: rest⟩ locale).st
      = st.setCat idx (cat.setSub j (sub.setDif k
          (dif.AddItem ⟨i.id, trimSpace (first.get "title"), i.order,
            specJoin (rest.map (fun v => trimSpace (v.get "body")))⟩))) := by
  unfold parseItem
  simp only [hcat, hsub, hdif]
  simp [hbody, itemBody_eq_specJoin]

/-- C6: an Item merge whose ancestor chain resolves and whose first row has
a non-empty `body` field (legacy mode) succeeds with exactly one row,
appending an item whose body is that row's trimmed `body`; with more than
one row it fails ShapeMismatch and attaches nothing (the state is
untouched). -/
theorem C6_item_legacy_mode (st : PState) (i : ItemNode) (first : Row) (rest : List Row)
    (locale : String) (idx : Nat) (cat : Category) (j : Nat) (sub : Subcategory) (k : Nat)
    (dif : Difficulty)
    (hcat : getCat st i.catID locale = .found idx cat)
    (hsub : cat.Sub i.subID = some (j, sub))
    (hdif : sub.Difficulty i.difID = some (k, dif))
    (hbody : first.get "body" ≠ "") :
    (rest = [] →
      (parseItem st i ⟨first :: rest⟩ locale).status = .ok ∧
      (parseItem st i ⟨first :: rest⟩ locale).st
        = st.setCat idx (cat.setSub j (sub.setDif k
            (dif.AddItem ⟨i.id, trimSpace (first.get "title"), i.order,
              trimSpace (first.get "body")⟩)))) ∧
    (rest ≠ [] →
      (parseItem st i ⟨first :: rest⟩ locale).status = .err .shapeMismatch ∧
      (parseItem st i ⟨first :: rest⟩ locale).st = st) := by
  unfold parseItem
  simp only [hcat, hsub, hdif]
  constructor
  · intro hrest
    subst hrest
    simp [hbody]
  · intro hrest
    simp [hbody, hrest]

/-- C7: any merge call, of any node kind, that returns an error leaves the
parser state — the Category Registry (index and ordered list, with every
registered category's whole subtree) and the Form Store — exactly as it was
before the call. -/
theorem C7_failing_merge_preserves_stores (st : PState) (cmp : Cmp) (res : Resource)
    (locale : String) (e : ErrKind)
    (h : (Parse st cmp res locale).status = .err e) :
    (Parse st cmp res locale).st = st := by
  cases cmp with
  | form f => exact parseForm_err_frame st f res locale e h
  | category c => exact parseCategory_err_frame st c res locale e h
  | subcategory s => exact parseSubcategory_err_frame st s res locale e h
  | difficulty d => exact parseDifficulty_err_frame st d res locale e h
  | item i => exact parseItem_err_frame st i res locale e h
  | checklist c => exact parseChecklist_err_frame st c res locale e h
  | invalid => rfl

/-- C10: a Checklist merge whose ancestor chain resolves reslices the
caller's Resource to the content with leading `nil` rows removed BEFORE the
count check, so the caller observes the mutated Resource even when the call
then fails ShapeMismatch on the count. -/
theorem C10_checklist_mutates_caller_resource (st : PState) (c : ChecklistNode)
    (res : Resource) (locale : String)
    (idx : Nat) (cat : Category) (j : Nat) (sub : Subcategory) (k : Nat) (dif : Difficulty)
    (hcat : getCat st c.catID locale = .found idx cat)
    (hsub : cat.Sub c.subID = some (j, sub))
    (hdif : sub.Difficulty c.difID = some (k, dif)) :
    (parseChecklist st c res locale).res = ⟨res.content.dropWhile Row.isNil⟩ ∧
    ((res.content.dropWhile Row.isNil).length ≠ c.checks.length →
      (parseChecklist st c res locale).status = .err .shapeMismatch) := by
  unfold parseChecklist
  simp only [hcat, hsub, hdif]
  constructor
  · by_cases hlen : (res.content.dropWhile Row.isNil).length = c.checks.length <;> simp [hlen]
  · intro hlen
    simp [hlen]

/-! ## Witnesses -/

/-- Witness for C4: against `wState`'s difficulty `"d1"` (which already
holds checklist `[⟨"old", false⟩]`), schema flags `[false, true]` and rows
`[nil, {text := " a "}, {text := "b"}]` merge successfully into checks
`[⟨"a", false⟩, ⟨"b", true⟩]`, replacing the old checklist. -/
theorem C4_checklist_merge_witness :
    (parseChecklist wState ⟨[false, true], "d1", "s1", "c1"⟩
        ⟨[Row.nil, Row.mk [("text", " a ")], Row.mk [("text", "b")]]⟩ "en").status = .ok ∧
    (parseChecklist wState ⟨[false, true], "d1", "s1", "c1"⟩
        ⟨[Row.nil, Row.mk [("text", " a ")], Row.mk [("text", "b")]]⟩ "en").st
      = wState.setCat 0 (wCat.setSub 0 (wSub.setDif 0
          { wDif with checks := some [⟨"a", false⟩, ⟨"b", true⟩] })) :=
  have h := (C4_checklist_merge wState ⟨[false, true], "d1", "s1", "c1"⟩
    ⟨[Row.nil, Row.mk [("text", " a ")], Row.mk [("text", "b")]]⟩ "en"
    0 wCat 0 wSub 0 wDif (by decide) (by decide) (by decide)).1 (by decide)
  ⟨h.1, h.2.trans (by decide)⟩

/-- Witness for C5: rows `[{title := "T"}, {body := " p1 "}, {body := "p2"}]`
merge into an item with title `"T"` and body `"p1" ++ paragraphSep ++ "p2"`
— trimmed per row, no leading separator. -/
theorem C5_item_paragraph_mode_witness :
    (parseItem wState ⟨"i1", 7, "d1", "s1", "c1"⟩
        ⟨[Row.mk [("title", "T")], Row.mk [("body", " p1 ")], Row.mk [("body", "p2")]]⟩
        "en").status = .ok ∧
    (parseItem wState ⟨"i1", 7, "d1", "s1", "c1"⟩
        ⟨[Row.mk [("title", "T")], Row.mk [("body", " p1 ")], Row.mk [("body", "p2")]]⟩
        "en").st
      = wState.setCat 0 (wCat.setSub 0 (wSub.setDif 0
          (wDif.AddItem ⟨"i1", "T", 7, "p1" ++ paragraphSep ++ "p2"⟩))) :=
  have h := C5_item_paragraph_mode wState ⟨"i1", 7, "d1", "s1", "c1"⟩
    (Row.mk [("title", "T")]) [Row.mk [("body", " p1 ")], Row.mk [("body", "p2")]]
    "en" 0 wCat 0 wSub 0 wDif (by decide) (by decide) (by decide) (by decide)
  ⟨h.1, h.2.trans (by decide)⟩

/-- Witness for C6: the single legacy row `{title := "T", body := " legacy "}`
merges into an item with body `"legacy"`; adding a second row `{body := "y"}`
fails ShapeMismatch and leaves the state untouched. -/
theorem C6_item_legacy_mode_witness :
    ((parseItem wState ⟨"i2", 0, "d1", "s1", "c1"⟩
        ⟨[Row.mk [("title", "T"), ("body", " legacy ")]]⟩ "en").status = .ok ∧
      (parseItem wState ⟨"i2", 0, "d1", "s1", "c1"⟩
          ⟨[Row.mk [("title", "T"), ("body", " legacy ")]]⟩ "en").st
        = wState.setCat 0 (wCat.setSub 0 (wSub.setDif 0
            (wDif.AddItem ⟨"i2", "T", 0, "legacy"⟩)))) ∧
    ((parseItem wState ⟨"i2", 0, "d1", "s1", "c1"⟩
        ⟨[Row.mk [("title", "T"), ("body", "x")], Row.mk [("body", "y")]]⟩ "en").status
        = .err .shapeMismatch ∧
      (parseItem wState ⟨"i2", 0, "d1", "s1", "c1"⟩
          ⟨[Row.mk [("title", "T"), ("body", "x")], Row.mk [("body", "y")]]⟩ "en").st
        = wState) :=
  have h1 := (C6_item_legacy_mode wState ⟨"i2", 0, "d1", "s1", "c1"⟩
    (Row.mk [("title", "T"), ("body", " legacy ")]) [] "en" 0 wCat 0 wSub 0 wDif
    (by decide) (by decide) (by decide) (by decide)).1 rfl
  have h2 := (C6_item_legacy_mode wState ⟨"i2", 0, "d1", "s1", "c1"⟩
    (Row.mk [("title", "T"), ("body", "x")]) [Row.mk [("body", "y")]] "en" 0 wCat 0 wSub 0 wDif
    (by decide) (by decide) (by decide) (by decide)).2 (by decide)
  ⟨⟨h1.1, h1.2.trans (by decide)⟩, h2⟩

/-- Witness for C7: a Category merge with zero rows fails ShapeMismatch and
the dispatcher leaves the fresh parser state untouched. -/
theorem C7_failing_merge_preserves_stores_witness :
    (Parse NewResourceParser (.category ⟨"c9", 3⟩) ⟨[]⟩ "en").status = .err .shapeMismatch ∧
    (Parse NewResourceParser (.category ⟨"c9", 3⟩) ⟨[]⟩ "en").st = NewResourceParser :=
  ⟨by decide,
    C7_failing_merge_preserves_stores NewResourceParser (.category ⟨"c9", 3⟩) ⟨[]⟩ "en"
      .shapeMismatch (by decide)⟩

/-- Witness for C8: with one row the merge succeeds and `getCat` finds the
new entry; with zero rows it fails ShapeMismatch and the state is
untouched. -/
theorem C8_category_merge_witness :
    (parseCategory NewResourceParser ⟨"c8", 2⟩ ⟨[Row.mk [("name", "N")]]⟩ "en").status = .ok ∧
    getCat (parseCategory NewResourceParser ⟨"c8", 2⟩ ⟨[Row.mk [("name", "N")]]⟩ "en").st
        "c8" "en" = .found 0 ⟨"c8", 2, "N", "en", []⟩ ∧
    (parseCategory NewResourceParser ⟨"c8", 2⟩ ⟨[]⟩ "en").status = .err .shapeMismatch ∧
    (parseCategory NewResourceParser ⟨"c8", 2⟩ ⟨[]⟩ "en").st = NewResourceParser :=
  have hone := (C8_category_merge NewResourceParser ⟨"c8", 2⟩ (Row.mk [("name", "N")])
    ⟨[]⟩ "en").1
  have hzero := (C8_category_merge NewResourceParser ⟨"c8", 2⟩ (Row.mk [("name", "N")])
    ⟨[]⟩ "en").2 (by decide)
  ⟨hone.1, hone.2.2.2, hzero.1, hzero.2⟩

/-- Witness for C10: with zero expected checks and rows
`[nil, {text := "a"}]`, the merge fails ShapeMismatch yet the caller's
Resource has been resliced to `[{text := "a"}]`, different from what was
passed in. -/
theorem C10_checklist_mutates_caller_resource_witness :
    (parseChecklist wState ⟨[], "d1", "s1", "c1"⟩
        ⟨[Row.nil, Row.mk [("text", "a")]]⟩ "en").res = ⟨[Row.mk [("text", "a")]]⟩ ∧
    (parseChecklist wState ⟨[], "d1", "s1", "c1"⟩
        ⟨[Row.nil, Row.mk [("text", "a")]]⟩ "en").res ≠ ⟨[Row.nil, Row.mk [("text", "a")]]⟩ ∧
    (parseChecklist wState ⟨[], "d1", "s1", "c1"⟩
        ⟨[Row.nil, Row.mk [("text", "a")]]⟩ "en").status = .err .shapeMismatch :=
  have h := C10_checklist_mutates_caller_resource wState ⟨[], "d1", "s1", "c1"⟩
    ⟨[Row.nil, Row.mk [("text", "a")]]⟩ "en" 0 wCat 0 wSub 0 wDif
    (by decide) (by decide) (by decide)
  ⟨h.1.trans (by decide), by rw [h.1]; decide, h.2 (by decide)⟩

end Component
